import Mathlib

/-!
Verification of the unity-realtime-npc WebSocket relay server against its
natural-language specification.

The development shallowly embeds the Python sources:
  - app/server.py: the per-message handler of the primary WebSocket endpoint,
    the RealtimeWebSocketManager registry operations, the event relay loop and
    the event serializer;
  - app/agent.py: the clock and date tool adapters with their time-zone
    fallback;
  - app/rag/rag_utils.py and app/rag/__init__.py: the cached RAG index
    accessor.

Python dicts become association lists, Python sets of sockets become lists
whose iteration order is treated as an arbitrary permutation of their
elements, awaited side effects become explicit effect lists, and exceptions
become Except values. Sockets, hosted-session handles and lifecycle contexts
are identified by natural numbers.
-/

namespace Npc

/-- Association-list lookup: the binding for key k, if any.  Models Python
dict indexing / dict.get. -/
def alookup {α : Type} (k : String) : List (String × α) → Option α
  | [] => none
  | (k', v) :: rest => if k' = k then some v else alookup k rest

/-- Association-list removal of every binding for key k.  Models Python
del d[k] / dict.pop on a dict, whose keys are unique. -/
def aerase {α : Type} (k : String) : List (String × α) → List (String × α)
  | [] => []
  | (k', v) :: rest => if k' = k then aerase k rest else (k', v) :: aerase k rest

/-- Association-list insertion/replacement: models Python d[k] = v. -/
def ainsert {α : Type} (k : String) (v : α) (m : List (String × α)) :
    List (String × α) :=
  (k, v) :: aerase k m

theorem alookup_aerase_self {α : Type} (k : String) (m : List (String × α)) :
    alookup k (aerase k m) = none := by
  induction m with
  | nil => rfl
  | cons hd tl ih =>
    obtain ⟨k', v⟩ := hd
    by_cases hk : k' = k
    · simpa [aerase, hk] using ih
    · simp [aerase, alookup, hk, ih]

theorem alookup_ainsert_self {α : Type} (k : String) (v : α)
    (m : List (String × α)) : alookup k (ainsert k v m) = some v := by
  simp [ainsert, alookup]

/-- The JSON values that appear in the payloads this server builds.  Values
produced by model_dump on SDK objects are kept opaque as pre-serialized
strings (raw / rawArr); guardrail results are single-field name objects. -/
inductive JsonValue : Type where
  | str (s : String)
  | num (n : Nat)
  | null
  | raw (dump : String)
  | rawArr (dumps : List String)
  | nameArr (names : List String)
deriving DecidableEq, Repr

/-- A JSON object, as the ordered field list Python's dict gives json.dumps. -/
abbrev JsonObj : Type := List (String × JsonValue)

/-- Python truthiness of an optional string: present and non-empty. -/
def truthyS : Option String → Bool
  | none => false
  | some s => !s.isEmpty

/-- Models the Python idiom (x or default) on an optional string. -/
def pyOr (x : Option String) (default : String) : String :=
  match x with
  | none => default
  | some s => if s.isEmpty then default else s

/-- One part of a structured realtime user message (server.py builds
input_text and input_image parts). -/
inductive UserContent : Type where
  | input_text (text : String)
  | input_image (image_url : String) (detail : String)
deriving DecidableEq, Repr

/-- The effects the endpoint handler requests from the manager while
processing one client message. -/
inductive ForwardAction : Type where
  | sendAudio (audio_bytes : List Nat)
  | sendUserMessage (content : List UserContent)
  | sendClientEvent (etype : String)
  | interrupt
deriving DecidableEq, Repr

/-- The eight client message shapes accepted by the primary WebSocket
endpoint (server.py, websocket_endpoint), after json.loads and field
extraction with dict.get defaults. -/
inductive ClientMessage : Type where
  | audio (data : List Int)
  | text (text : String)
  | image (data_url : Option String) (text : Option String)
  | commit_audio
  | image_start (id : String) (text : Option String)
  | image_chunk (id : String) (chunk : String)
  | image_end (id : String)
  | interrupt
deriving DecidableEq, Repr

/-- One per-id chunked-image buffer (server.py image_buffers entries). -/
structure ImageBuffer : Type where
  text : String
  chunks : List String
deriving DecidableEq, Repr

/-- struct.pack of a list of int16 samples into bytes, two's complement,
little-endian as on the x86 hosts this server targets. -/
def pack_int16 (data : List Int) : List Nat :=
  (data.map (fun i =>
    let u := (i % 65536).toNat
    [u % 256, u / 256])).flatten

/-- The content list built for an image user message: input_image at detail
high, followed by the prompt text when it is non-empty (it always is, since
a default prompt is substituted for a missing or empty one). -/
def image_content (url prompt_text : String) : List UserContent :=
  if !prompt_text.isEmpty then
    [.input_image url "high", .input_text prompt_text]
  else
    [.input_image url "high"]

/-- The body of the receive loop of websocket_endpoint (server.py lines
358-502) for one decoded client message: given the current chunked-image
buffers, it returns the new buffers, the manager calls made, and the replies
sent back to the sending socket (as JSON objects).  The handler body raises
nothing on these message shapes, which totality of this function reflects. -/
def handle_message (bufs : List (String × ImageBuffer)) :
    ClientMessage → List (String × ImageBuffer) × List ForwardAction × List JsonObj
  | .audio data => (bufs, [.sendAudio (pack_int16 data)], [])
  | .text t =>
    if !t.isEmpty then
      (bufs, [.sendUserMessage [.input_text t]],
        [[("type", .str "client_info"), ("info", .str "text_enqueued")]])
    else
      (bufs, [], [[("type", .str "error"), ("error", .str "Empty text message.")]])
  | .image data_url text =>
    let prompt_text := pyOr text "Please describe this image."
    if truthyS data_url then
      let url := data_url.getD ""
      (bufs, [.sendUserMessage (image_content url prompt_text)],
        [[("type", .str "client_info"), ("info", .str "image_enqueued"),
          ("size", .num url.length)]])
    else
      (bufs, [],
        [[("type", .str "error"), ("error", .str "No data_url for image message.")]])
  | .commit_audio => (bufs, [.sendClientEvent "input_audio_buffer.commit"], [])
  | .image_start id text =>
    (ainsert id ⟨pyOr text "Please describe this image.", []⟩ bufs, [],
      [[("type", .str "client_info"), ("info", .str "image_start_ack"),
        ("id", .str id)]])
  | .image_chunk id chunk =>
    match alookup id bufs with
    | none => (bufs, [], [])
    | some b =>
      let b2 : ImageBuffer := ⟨b.text, b.chunks ++ [chunk]⟩
      if b2.chunks.length % 10 == 0 then
        (ainsert id b2 bufs, [],
          [[("type", .str "client_info"), ("info", .str "image_chunk_ack"),
            ("id", .str id), ("count", .num b2.chunks.length)]])
      else
        (ainsert id b2 bufs, [], [])
  | .image_end id =>
    match alookup id bufs with
    | none =>
      (bufs, [],
        [[("type", .str "error"),
          ("error", .str "Unknown image id for image_end.")]])
    | some b =>
      let bufs2 := aerase id bufs
      let data_url : Option String :=
        if b.chunks.isEmpty then none else some (String.join b.chunks)
      if truthyS data_url then
        let url := data_url.getD ""
        (bufs2, [.sendUserMessage (image_content url b.text)],
          [[("type", .str "client_info"), ("info", .str "image_enqueued"),
            ("id", .str id), ("size", .num url.length)]])
      else
        (bufs2, [], [[("type", .str "error"), ("error", .str "Empty image.")]])
  | .interrupt => (bufs, [.interrupt], [])

/-- A reply is well-formed when it is a client_info or error object. -/
def well_formed_reply (r : JsonObj) : Bool :=
  match r with
  | ("type", JsonValue.str t) :: _ => t == "client_info" || t == "error"
  | _ => false

/-- How many replies the handler actually sends for one message: one for
text, image, image_start and image_end; none for audio, commit_audio and
interrupt; for image_chunk, one exactly when the buffer is known and the new
chunk count is a multiple of ten. -/
def expected_reply_count (bufs : List (String × ImageBuffer)) :
    ClientMessage → Nat
  | .audio _ => 0
  | .text _ => 1
  | .image _ _ => 1
  | .commit_audio => 0
  | .image_start _ _ => 1
  | .image_chunk id _ =>
    match alookup id bufs with
    | none => 0
    | some b => if (b.chunks.length + 1) % 10 == 0 then 1 else 0
  | .image_end _ => 1
  | .interrupt => 0

/-- The standard base64 alphabet used by base64.b64encode. -/
def base64Chars : List Char :=
  "ABCDEFGHIJKLMNOPQRSTUVWXYZabcdefghijklmnopqrstuvwxyz0123456789+/".toList

/-- One base64 digit. -/
def base64Digit (n : Nat) : Char := base64Chars.getD n 'A'

/-- base64.b64encode of a byte list, with = padding. -/
def base64Encode : List Nat → String
  | [] => ""
  | [b0] =>
    String.mk [base64Digit (b0 / 4), base64Digit (b0 % 4 * 16), '=', '=']
  | [b0, b1] =>
    String.mk [base64Digit (b0 / 4), base64Digit (b0 % 4 * 16 + b1 / 16),
      base64Digit (b1 % 16 * 4), '=']
  | b0 :: b1 :: b2 :: rest =>
    String.mk [base64Digit (b0 / 4), base64Digit (b0 % 4 * 16 + b1 / 16),
      base64Digit (b1 % 16 * 4 + b2 / 64), base64Digit (b2 % 64)] ++
      base64Encode rest

/-- A session event as received from the hosted realtime session, reduced to
the fields the serializer reads.  Events whose top-level type tag is outside
the fourteen handled tags are represented by the unknown constructor, which
the serializer feeds to assert_never.  model_dump payloads are opaque dumped
strings; history_added carries none when model_dump raised. -/
inductive SessionEvent : Type where
  | agent_start (agent : String)
  | agent_end (agent : String)
  | handoff (from_agent : String) (to_agent : String)
  | tool_start (tool : String)
  | tool_end (tool : String) (output : String)
  | audio (data : List Nat)
  | audio_interrupted
  | audio_end
  | history_updated (history : List String)
  | history_added (item : Option String)
  | guardrail_tripped (names : List String)
  | raw_model_event (data_type : Option String) (item_id : Option String)
      (delta : String) (response_id : Option String)
  | error (err : Option String)
  | input_audio_timeout_triggered
  | unknown (tag : String)
deriving DecidableEq, Repr

/-- The manager's allow-list of raw model event subtypes
(RealtimeWebSocketManager.__init__, server.py line 31). -/
def allowed_raw_types : List String := ["transcript_delta"]

/-- A string-or-null JSON value, as getattr with a None default produces. -/
def jopt : Option String → JsonValue
  | none => .null
  | some s => .str s

/-- RealtimeWebSocketManager._serialize_event (server.py lines 286-339).
Returns ok none when the event is dropped (raw subtypes outside the
allow-list), ok (some fields) for a serialized object, and error when
assert_never raises on an unknown top-level tag. -/
def serialize_event : SessionEvent → Except String (Option JsonObj)
  | .agent_start agent =>
    .ok (some [("type", .str "agent_start"), ("agent", .str agent)])
  | .agent_end agent =>
    .ok (some [("type", .str "agent_end"), ("agent", .str agent)])
  | .handoff from_agent to_agent =>
    .ok (some [("type", .str "handoff"), ("from", .str from_agent),
      ("to", .str to_agent)])
  | .tool_start tool =>
    .ok (some [("type", .str "tool_start"), ("tool", .str tool)])
  | .tool_end tool output =>
    .ok (some [("type", .str "tool_end"), ("tool", .str tool),
      ("output", .str output)])
  | .audio data =>
    .ok (some [("type", .str "audio"), ("audio", .str (base64Encode data))])
  | .audio_interrupted => .ok (some [("type", .str "audio_interrupted")])
  | .audio_end => .ok (some [("type", .str "audio_end")])
  | .history_updated history =>
    .ok (some [("type", .str "history_updated"), ("history", .rawArr history)])
  | .history_added item =>
    .ok (some [("type", .str "history_added"),
      ("item", match item with | some dump => .raw dump | none => .null)])
  | .guardrail_tripped names =>
    .ok (some [("type", .str "guardrail_tripped"),
      ("guardrail_results", .nameArr names)])
  | .raw_model_event data_type item_id delta response_id =>
    if (match data_type with
        | some t => allowed_raw_types.contains t
        | none => false) then
      if data_type = some "transcript_delta" then
        .ok (some [("type", .str "transcript_delta"), ("item_id", jopt item_id),
          ("delta", .str delta), ("response_id", jopt response_id)])
      else
        .ok (some [("type", jopt data_type)])
    else
      .ok none
  | .error err =>
    .ok (some [("type", .str "error"), ("error", .str (err.getD "Unknown error"))])
  | .input_audio_timeout_triggered =>
    .ok (some [("type", .str "input_audio_timeout_triggered")])
  | .unknown tag =>
    .error ("assert_never: " ++ tag)

/-- The registries of RealtimeWebSocketManager (server.py lines 26-31).
Session handles, lifecycle contexts and sockets are numeric identifiers; a
listener set is kept as its registration-ordered element list (set
membership semantics; iteration order is modelled separately where it
matters). -/
structure ManagerState : Type where
  active_sessions : List (String × Nat)
  session_contexts : List (String × Nat)
  websockets : List (String × Nat)
  listeners : List (String × List Nat)
deriving DecidableEq, Repr

/-- The awaited calls the manager makes on sessions and sockets. -/
inductive ManagerEffect : Type where
  | sessionSendAudio (session : Nat) (audio_bytes : List Nat)
  | modelSendRawMessage (session : Nat) (etype : String)
      (other_data : List (String × String))
  | sessionSendMessage (session : Nat) (content : List UserContent)
  | sessionInterrupt (session : Nat)
deriving DecidableEq, Repr

/-- RealtimeWebSocketManager.disconnect (server.py lines 203-217): exits the
lifecycle context if present, drops the key from every registry map, and
best-effort closes every observer socket registered for the key.  Returns
the new state, the contexts whose aexit was awaited, and the sockets on
which close was attempted (close failures are swallowed by the source and
so need no representation).  The embedding assumes aexit returns, which is
what "disconnect completes" means. -/
def disconnect (s : ManagerState) (session_id : String) :
    ManagerState × List Nat × List Nat :=
  let exited := match alookup session_id s.session_contexts with
    | some ctx => [ctx]
    | none => []
  let closes := (alookup session_id s.listeners).getD []
  ({ active_sessions := aerase session_id s.active_sessions,
     session_contexts := aerase session_id s.session_contexts,
     websockets := aerase session_id s.websockets,
     listeners := aerase session_id s.listeners },
   exited, closes)

/-- RealtimeWebSocketManager.send_audio (server.py lines 219-221). -/
def send_audio (s : ManagerState) (session_id : String)
    (audio_bytes : List Nat) : ManagerState × List ManagerEffect :=
  match alookup session_id s.active_sessions with
  | some sess => (s, [.sessionSendAudio sess audio_bytes])
  | none => (s, [])

/-- RealtimeWebSocketManager.send_client_event (server.py lines 223-235):
wraps the event dict as a raw model message whose other_data holds every
field but the type.  The source reads the type field with dict indexing
after the session check; its single call site always supplies it, and a
missing type is read here as the empty string. -/
def send_client_event (s : ManagerState) (session_id : String)
    (event : List (String × String)) : ManagerState × List ManagerEffect :=
  match alookup session_id s.active_sessions with
  | none => (s, [])
  | some sess =>
    (s, [.modelSendRawMessage sess ((alookup "type" event).getD "")
      (event.filter (fun kv => kv.1 ≠ "type"))])

/-- RealtimeWebSocketManager.send_user_message (server.py lines 237-242). -/
def send_user_message (s : ManagerState) (session_id : String)
    (content : List UserContent) : ManagerState × List ManagerEffect :=
  match alookup session_id s.active_sessions with
  | none => (s, [])
  | some sess => (s, [.sessionSendMessage sess content])

/-- RealtimeWebSocketManager.interrupt (server.py lines 244-249). -/
def interrupt (s : ManagerState) (session_id : String) :
    ManagerState × List ManagerEffect :=
  match alookup session_id s.active_sessions with
  | none => (s, [])
  | some sess => (s, [.sessionInterrupt sess])

/-- Python set.add on a socket set kept as its registration-ordered list. -/
def setAdd (xs : List Nat) (x : Nat) : List Nat :=
  if x ∈ xs then xs else xs ++ [x]

/-- RealtimeWebSocketManager.add_listener (server.py lines 274-276): accepts
the socket and adds it to listeners.setdefault(session_id, set()),
unconditionally creating the entry when the key is absent. -/
def add_listener (s : ManagerState) (session_id : String) (ws : Nat) :
    ManagerState :=
  let cur := (alookup session_id s.listeners).getD []
  { s with listeners := ainsert session_id (setAdd cur ws) s.listeners }

/-- RealtimeWebSocketManager.remove_listener (server.py lines 278-284):
returns unchanged when the key has no (or an empty) listener set, otherwise
discards the socket and deletes the entry when it became empty. -/
def remove_listener (s : ManagerState) (session_id : String) (ws : Nat) :
    ManagerState :=
  match alookup session_id s.listeners with
  | none => s
  | some cur =>
    if cur.isEmpty then s
    else
      let cur2 := cur.filter (fun x => x ≠ ws)
      if cur2.isEmpty then
        { s with listeners := aerase session_id s.listeners }
      else
        { s with listeners := ainsert session_id cur2 s.listeners }

/-- The observer endpoint websocket_events (server.py lines 508-518) on a
new observer connection: an unknown session key closes the socket at once
(returning true) without touching the registry; a known key registers the
observer via add_listener. -/
def websocket_events_connect (s : ManagerState) (session_id : String)
    (ws : Nat) : ManagerState × Bool :=
  if (alookup session_id s.active_sessions).isSome then
    (add_listener s session_id ws, false)
  else
    (s, true)

/-- The inner listener loop of RealtimeWebSocketManager._process_events
(server.py lines 261-270) for one serialized event: the sockets are visited
in the iteration order of the Python set (iter), each non-failing socket is
sent the payload, each failing socket gets a close attempt and is discarded
from the live set.  Returns the successful sends in send order, the close
attempts, and the surviving listeners. -/
def fanout_event (payload : JsonObj) (failing : Nat → Bool) :
    List Nat → List (Nat × JsonObj) × List Nat × List Nat
  | [] => ([], [], [])
  | ws :: rest =>
    let r := fanout_event payload failing rest
    if failing ws then
      (r.1, ws :: r.2.1, r.2.2)
    else
      ((ws, payload) :: r.1, r.2.1, ws :: r.2.2)

/-- The drain loop of RealtimeWebSocketManager._process_events (server.py
lines 251-272): events are consumed in emission order; a dropped event
(serializer returns none) forwards nothing; a serializer exception is caught
by the surrounding try and ends the task, forwarding nothing further.  Each
surviving payload is sent first to the owning socket (assumed to accept the
send; a failed owner send likewise kills the task) and then fanned out to
the listeners.  Returns every successful send in order. -/
def process_events (owner : Nat) (failing : Nat → Bool) :
    List SessionEvent → List Nat → List (Nat × JsonObj)
  | [], _ => []
  | e :: rest, listeners =>
    match serialize_event e with
    | .error _ => []
    | .ok none => process_events owner failing rest listeners
    | .ok (some payload) =>
      let f := fanout_event payload failing listeners
      ((owner, payload) :: f.1) ++ process_events owner failing rest f.2.2

/-- The payload stream the relay derives from an emission-ordered event
list: serialized payloads in order, with dropped events skipped, cut short
at the first serializer exception. -/
def relayed_payloads : List SessionEvent → List JsonObj
  | [] => []
  | e :: rest =>
    match serialize_event e with
    | .error _ => []
    | .ok none => relayed_payloads rest
    | .ok (some payload) => payload :: relayed_payloads rest

/-- The sends of a delivery list addressed to one socket, in order. -/
def sends_to (ws : Nat) (deliveries : List (Nat × JsonObj)) : List JsonObj :=
  deliveries.filterMap (fun d => if d.1 = ws then some d.2 else none)

/-- The build-time side effects of the RAG accessor (rag_utils.get_index and
rag.__init__.get_index, which share this caching and build structure). -/
inductive RagEffect : Type where
  | loadDocuments
  | splitDocuments
  | createCollection
  | buildIndex
deriving DecidableEq, Repr

/-- The configuration get_index reads: whether the Qdrant collection already
exists when the build runs.  Document loading, splitting and index
construction are recorded as effects; the index handle itself is opaque. -/
structure RagEnv : Type where
  collectionExists : Bool
deriving DecidableEq, Repr

/-- The module-level cache of the RAG accessor: the cached index handle (the
global _index, none before the first build) and a counter minting distinct
handles so that handle identity is observable. -/
structure RagState : Type where
  cached : Option Nat
  nextHandle : Nat
deriving DecidableEq, Repr

/-- The effect list of one index build: load documents, split them into
paragraph nodes, create the collection when absent, construct the index. -/
def buildEffects (env : RagEnv) : List RagEffect :=
  [.loadDocuments, .splitDocuments] ++
    (if env.collectionExists then [] else [.createCollection]) ++
    [.buildIndex]

/-- get_index (rag_utils.py lines 84-151 and rag/__init__.py lines 92-156):
returns the cached handle untouched when present (the presence check on
_index is the only guard), otherwise performs one full build, caches the new
handle and returns it. -/
def get_index (env : RagEnv) (s : RagState) :
    RagState × Nat × List RagEffect :=
  match s.cached with
  | some i => (s, i, [])
  | none =>
    (⟨some s.nextHandle, s.nextHandle + 1⟩, s.nextHandle, buildEffects env)

/-- n successive calls of get_index in one process, collecting the returned
handles and the accumulated effects. -/
def calls_get_index (env : RagEnv) : Nat → RagState → RagState × List Nat × List RagEffect
  | 0, s => (s, [], [])
  | n + 1, s =>
    let r1 := get_index env s
    let r2 := calls_get_index env n r1.1
    (r2.1, r1.2.1 :: r2.2.1, r1.2.2 ++ r2.2.2)

/-- A wall-clock reading in some time zone. -/
structure ClockReading : Type where
  hour : Nat
  minute : Nat
  day : Nat
  month : Nat
deriving DecidableEq, Repr

/-- The environment of the clock and date tools (agent.py): the configured
TIMEZONE string, which zone keys the tz database resolves (ZoneInfo lookup
succeeding), and the current wall clock as a function of the zone key. -/
structure ToolEnv : Type where
  timezone : String
  zoneValid : String → Bool
  clock : String → ClockReading

/-- strftime zero-padded two-digit rendering used by %H %M %d %m. -/
def pad2 (n : Nat) : String :=
  if n < 10 then "0" ++ toString n else toString n

/-- The result dict of get_current_time: hour and minutes strings plus the
configured (not the effective) time zone string. -/
structure TimeResult : Type where
  current_hour : String
  current_minutes : String
  timezone : String
deriving DecidableEq, Repr

/-- The result dict of get_current_date. -/
structure DateResult : Type where
  current_day : String
  current_month : String
  timezone : String
deriving DecidableEq, Repr

/-- The try ZoneInfo(TIMEZONE) except ZoneInfoNotFoundError fallback shared
by both tools: the effective zone key and the console messages printed. -/
def resolve_zone (env : ToolEnv) : String × List String :=
  if env.zoneValid env.timezone then (env.timezone, [])
  else ("UTC",
    ["No time zone found with key " ++ env.timezone ++ ", falling back to UTC"])

/-- get_current_time (agent.py lines 27-44): resolves the zone with UTC
fallback, reads the clock in the effective zone, formats hour and minutes,
and returns the configured time zone string; raises nothing. -/
def get_current_time (env : ToolEnv) : TimeResult × List String :=
  let z := resolve_zone env
  let now := env.clock z.1
  (⟨pad2 now.hour, pad2 now.minute, env.timezone⟩, z.2)

/-- get_current_date (agent.py lines 49-66): same zone resolution, then day
and month. -/
def get_current_date (env : ToolEnv) : DateResult × List String :=
  let z := resolve_zone env
  let now := env.clock z.1
  (⟨pad2 now.day, pad2 now.month, env.timezone⟩, z.2)

/-- An event tag outside the fourteen tags the serializer handles. -/
def is_unknown : SessionEvent → Bool
  | .unknown _ => true
  | _ => false

/-- Events the serializer drops: raw model events whose data subtype is
outside the allow-list (which holds only transcript_delta). -/
def drops : SessionEvent → Bool
  | .raw_model_event data_type _ _ _ => !(data_type == some "transcript_delta")
  | _ => false

/-- Whether a serializer result is a JSON object (rather than a dropped
event or an assertion failure). -/
def is_json_object_result (r : Except String (Option JsonObj)) : Bool :=
  match r with
  | .ok (some _) => true
  | _ => false

/-- C2: after disconnect(key) completes, the key is absent from all four
registry maps, the lifecycle context registered for the key (if any) has
been exited, and close was attempted on every observer socket registered
for the key. -/
theorem disconnect_clears_registry (s : ManagerState) (key : String) :
    alookup key (disconnect s key).1.active_sessions = none ∧
    alookup key (disconnect s key).1.session_contexts = none ∧
    alookup key (disconnect s key).1.websockets = none ∧
    alookup key (disconnect s key).1.listeners = none ∧
    (disconnect s key).2.1 = (alookup key s.session_contexts).toList ∧
    (disconnect s key).2.2 = (alookup key s.listeners).getD [] := by
  refine ⟨?_, ?_, ?_, ?_, ?_, ?_⟩ <;>
    cases h : alookup key s.session_contexts <;>
      simp [disconnect, alookup_aerase_self, h]

theorem calls_get_index_cached (env : RagEnv) (n : Nat) (s : RagState)
    (i : Nat) (h : s.cached = some i) :
    calls_get_index env n s = (s, List.replicate n i, []) := by
  induction n with
  | zero => rfl
  | succ n ih => simp [calls_get_index, get_index, h, ih, List.replicate_succ]

/-- C3: get_index is idempotent.  Starting from the fresh module state, any
positive number of calls returns the same handle every time, the accumulated
side effects are exactly those of the single first-call build (no further
loading, splitting, collection creation or construction), at most one build
occurs, and the only guard is the presence of the cached handle. -/
theorem get_index_idempotent (env : RagEnv) (n : Nat) (h : 1 ≤ n) :
    (calls_get_index env n ⟨none, 0⟩).2.1 = List.replicate n 0 ∧
    (calls_get_index env n ⟨none, 0⟩).2.2 = buildEffects env ∧
    (calls_get_index env n ⟨none, 0⟩).2.2.count RagEffect.buildIndex = 1 ∧
    (calls_get_index env n ⟨none, 0⟩).1.cached = some 0 := by
  obtain ⟨m, rfl⟩ : ∃ m, n = m + 1 := ⟨n - 1, (Nat.succ_pred_eq_of_pos h).symm⟩
  have hc := calls_get_index_cached env m ⟨some 0, 1⟩ 0 rfl
  refine ⟨?_, ?_, ?_, ?_⟩ <;>
    simp [calls_get_index, get_index, hc, List.replicate_succ, buildEffects]
  cases env with
  | mk b => cases b <;> decide

/-- C3 witness: three calls from a fresh process state with an absent
collection return the handle three times and perform one build. -/
theorem get_index_idempotent_witness :
    (calls_get_index ⟨false⟩ 3 ⟨none, 0⟩).2.1 = [0, 0, 0] ∧
    (calls_get_index ⟨false⟩ 3 ⟨none, 0⟩).2.2 =
      [.loadDocuments, .splitDocuments, .createCollection, .buildIndex] := by
  have h := get_index_idempotent ⟨false⟩ 3 (by decide)
  exact ⟨h.1.trans (by decide), h.2.1.trans (by decide)⟩

/-- C5 counterexample: add_listener on a session key absent from every
registry map does not leave the registry unchanged — it creates a listeners
entry for the unknown key. -/
theorem add_listener_unknown_key_cx :
    add_listener ⟨[], [], [], []⟩ "s1" 7 ≠ ⟨[], [], [], []⟩ := by decide

/-- C5 amended: for an unknown session key, remove_listener is a silent
no-op, and the observer endpoint closes the socket without touching the
registry; add_listener itself, however, registers the socket
unconditionally, creating a listeners entry for the unknown key. -/
theorem listener_unknown_key_behavior (s : ManagerState) (key : String)
    (ws : Nat) (h1 : alookup key s.active_sessions = none)
    (h2 : alookup key s.listeners = none) :
    remove_listener s key ws = s ∧
    websocket_events_connect s key ws = (s, true) ∧
    add_listener s key ws =
      { s with listeners := ainsert key [ws] s.listeners } := by
  refine ⟨?_, ?_, ?_⟩
  · simp [remove_listener, h2]
  · simp [websocket_events_connect, h1]
  · simp [add_listener, h2, setAdd]

/-- C5 amended witness at a concrete registry holding one other session's
listeners. -/
theorem listener_unknown_key_behavior_witness :
    remove_listener ⟨[], [], [], [("other", [1])]⟩ "s1" 7 =
      ⟨[], [], [], [("other", [1])]⟩ ∧
    websocket_events_connect ⟨[], [], [], [("other", [1])]⟩ "s1" 7 =
      (⟨[], [], [], [("other", [1])]⟩, true) ∧
    add_listener ⟨[], [], [], [("other", [1])]⟩ "s1" 7 =
      ⟨[], [], [], [("s1", [7]), ("other", [1])]⟩ := by
  have h := listener_unknown_key_behavior ⟨[], [], [], [("other", [1])]⟩
    "s1" 7 (by decide) (by decide)
  exact ⟨h.1, h.2.1, h.2.2.trans (by decide)⟩

/-- C6: the raw-event allow-list holds exactly transcript_delta; a raw model
event with any other data subtype is dropped (serialized to nothing), and a
transcript_delta raw event becomes a JSON object with type transcript_delta
carrying item_id, delta and response_id. -/
theorem serialize_raw_allow_list (data_type item_id : Option String)
    (delta : String) (response_id : Option String)
    (h : data_type ≠ some "transcript_delta") :
    allowed_raw_types = ["transcript_delta"] ∧
    serialize_event (.raw_model_event data_type item_id delta response_id) =
      .ok none ∧
    serialize_event
        (.raw_model_event (some "transcript_delta") item_id delta response_id) =
      .ok (some [("type", .str "transcript_delta"), ("item_id", jopt item_id),
        ("delta", .str delta), ("response_id", jopt response_id)]) := by
  refine ⟨rfl, ?_, by simp [serialize_event, allowed_raw_types]⟩
  cases data_type with
  | none => simp [serialize_event]
  | some t =>
    have ht : t ≠ "transcript_delta" := fun he => h (by rw [he])
    simp [serialize_event, allowed_raw_types, ht]

/-- C6 witness on a concrete disallowed subtype and a concrete delta. -/
theorem serialize_raw_allow_list_witness :
    serialize_event
        (.raw_model_event (some "response.created") (some "i") "d" (some "r")) =
      .ok none ∧
    serialize_event
        (.raw_model_event (some "transcript_delta") (some "i") "d" (some "r")) =
      .ok (some [("type", .str "transcript_delta"), ("item_id", .str "i"),
        ("delta", .str "d"), ("response_id", .str "r")]) := by
  have h := serialize_raw_allow_list (some "response.created") (some "i") "d"
    (some "r") (by decide)
  exact ⟨h.2.1, h.2.2⟩

/-- C7 counterexample: raw_model_event is a known top-level tag, yet a raw
event with data subtype response.done is serialized to nothing — not to a
JSON object and not to an assertion failure. -/
theorem raw_event_not_serialized_cx :
    is_json_object_result
        (serialize_event (.raw_model_event (some "response.done") none "" none)) =
      false ∧
    serialize_event (.raw_model_event (some "response.done") none "" none) =
      .ok none :=
  ⟨rfl, rfl⟩

/-- C7 amended: every event with a known top-level tag is serialized without
an assertion failure — to a JSON object, except that a raw model event whose
data subtype is outside the allow-list yields nothing (the event is
dropped); an event with an unknown top-level tag fails fast with an
assertion error. -/
theorem serialize_known_total (e : SessionEvent) :
    (is_unknown e = true → ∃ msg, serialize_event e = Except.error msg) ∧
    (is_unknown e = false → drops e = true → serialize_event e = .ok none) ∧
    (is_unknown e = false → drops e = false →
      ∃ fields, serialize_event e = .ok (some fields)) := by
  cases e with
  | raw_model_event data_type item_id delta response_id =>
    refine ⟨by simp [is_unknown], ?_, ?_⟩ <;> intro _ hd
    · cases data_type with
      | none => simp [serialize_event]
      | some t =>
        have ht : t ≠ "transcript_delta" := by
          simpa [drops] using hd
        simp [serialize_event, allowed_raw_types, ht]
    · have ht : data_type = some "transcript_delta" := by
        simpa [drops] using hd
      subst ht
      exact ⟨_, rfl⟩
  | unknown tag => exact ⟨fun _ => ⟨_, rfl⟩, by simp [is_unknown], by simp [is_unknown]⟩
  | _ => exact ⟨by simp [is_unknown], by simp [drops], fun _ _ => ⟨_, rfl⟩⟩

/-- C7 amended witness: a known tag serializes to an object; an unknown tag
raises. -/
theorem serialize_known_total_witness :
    (∃ fields, serialize_event SessionEvent.audio_end = Except.ok (some fields)) ∧
    (∃ msg, serialize_event (SessionEvent.unknown "boom") = Except.error msg) :=
  ⟨(serialize_known_total SessionEvent.audio_end).2.2 rfl rfl,
   (serialize_known_total (SessionEvent.unknown "boom")).1 rfl⟩

/-- C8: an image_end whose id matches no open chunked-image buffer produces
exactly one error reply, forwards nothing, and leaves the buffers unchanged;
the handler body is total here, so nothing escapes the message loop. -/
theorem image_end_unknown_id_error (bufs : List (String × ImageBuffer))
    (id : String) (h : alookup id bufs = none) :
    handle_message bufs (.image_end id) =
      (bufs, [],
        [[("type", .str "error"),
          ("error", .str "Unknown image id for image_end.")]]) := by
  simp [handle_message, h]

/-- C8 witness: buffers holding an unrelated open image. -/
theorem image_end_unknown_id_error_witness :
    handle_message [("a", ⟨"t", ["x"]⟩)] (.image_end "img7") =
      ([("a", ⟨"t", ["x"]⟩)], [],
        [[("type", .str "error"),
          ("error", .str "Unknown image id for image_end.")]]) :=
  image_end_unknown_id_error [("a", ⟨"t", ["x"]⟩)] "img7" (by decide)

/-- C9: when the configured time-zone key does not resolve, both
get_current_time and get_current_date compute their reading from the UTC
clock, print one console message, and return normally (both embeddings are
total, reflecting that the source catches ZoneInfoNotFoundError). -/
theorem timezone_fallback_utc (env : ToolEnv)
    (h : env.zoneValid env.timezone = false) :
    get_current_time env =
      (⟨pad2 (env.clock "UTC").hour, pad2 (env.clock "UTC").minute,
        env.timezone⟩,
       ["No time zone found with key " ++ env.timezone ++
        ", falling back to UTC"]) ∧
    get_current_date env =
      (⟨pad2 (env.clock "UTC").day, pad2 (env.clock "UTC").month,
        env.timezone⟩,
       ["No time zone found with key " ++ env.timezone ++
        ", falling back to UTC"]) := by
  constructor <;> simp [get_current_time, get_current_date, resolve_zone, h]

/-- C9 witness: an unresolvable zone key with a concrete clock. -/
theorem timezone_fallback_utc_witness :
    get_current_time ⟨"Mars/Olympus", fun _ => false, fun _ => ⟨3, 4, 5, 6⟩⟩ =
      (⟨"03", "04", "Mars/Olympus"⟩,
       ["No time zone found with key Mars/Olympus, falling back to UTC"]) ∧
    get_current_date ⟨"Mars/Olympus", fun _ => false, fun _ => ⟨3, 4, 5, 6⟩⟩ =
      (⟨"05", "06", "Mars/Olympus"⟩,
       ["No time zone found with key Mars/Olympus, falling back to UTC"]) := by
  have h := timezone_fallback_utc
    ⟨"Mars/Olympus", fun _ => false, fun _ => ⟨3, 4, 5, 6⟩⟩ rfl
  exact ⟨h.1.trans (by decide), h.2.trans (by decide)⟩

/-- C10: on a session_id absent from active_sessions, send_audio,
send_client_event, send_user_message and interrupt all return with no
effect and leave every registry map unchanged (each is total, so nothing
is raised). -/
theorem unknown_session_noop (s : ManagerState) (sid : String)
    (audio_bytes : List Nat) (event : List (String × String))
    (content : List UserContent)
    (h : alookup sid s.active_sessions = none) :
    send_audio s sid audio_bytes = (s, []) ∧
    send_client_event s sid event = (s, []) ∧
    send_user_message s sid content = (s, []) ∧
    interrupt s sid = (s, []) := by
  refine ⟨?_, ?_, ?_, ?_⟩ <;>
    simp [send_audio, send_client_event, send_user_message, interrupt, h]

/-- C10 witness: a registry holding a different session only. -/
theorem unknown_session_noop_witness :
    send_audio ⟨[("live", 5)], [("live", 9)], [("live", 2)], []⟩ "ghost" [1] =
      (⟨[("live", 5)], [("live", 9)], [("live", 2)], []⟩, []) ∧
    interrupt ⟨[("live", 5)], [("live", 9)], [("live", 2)], []⟩ "ghost" =
      (⟨[("live", 5)], [("live", 9)], [("live", 2)], []⟩, []) := by
  have h := unknown_session_noop ⟨[("live", 5)], [("live", 9)], [("live", 2)], []⟩
    "ghost" [1] [("type", "input_audio_buffer.commit")] [] (by decide)
  exact ⟨h.1, h.2.2.2⟩

/-- C1 counterexample: an accepted audio message is forwarded
fire-and-forget; processing it sends the client no acknowledgment and no
error, not exactly one reply. -/
theorem audio_message_has_no_reply :
    (handle_message [] (ClientMessage.audio [42])).2.2.length ≠ 1 := by decide

/-- C1 amended: every reply the handler sends is a well-formed client_info
or error object, but the reply count per accepted message is: exactly one
for text, image, image_start and image_end; none for audio, commit_audio
and interrupt; and for image_chunk one exactly when the buffer is known and
the new chunk count is a multiple of ten, otherwise none. -/
theorem handle_message_reply_discipline (bufs : List (String × ImageBuffer))
    (m : ClientMessage) :
    (handle_message bufs m).2.2.length = expected_reply_count bufs m ∧
    ∀ r ∈ (handle_message bufs m).2.2, well_formed_reply r = true := by
  cases m with
  | audio data => simp [handle_message, expected_reply_count]
  | text t =>
    by_cases ht : t.isEmpty <;>
      simp [handle_message, expected_reply_count, ht, well_formed_reply]
  | image du tx =>
    by_cases hd : truthyS du <;>
      simp [handle_message, expected_reply_count, hd, well_formed_reply]
  | commit_audio => simp [handle_message, expected_reply_count]
  | image_start id tx =>
    simp [handle_message, expected_reply_count, well_formed_reply]
  | image_chunk id chunk =>
    cases hb : alookup id bufs with
    | none => simp [handle_message, expected_reply_count, hb]
    | some b =>
      by_cases hc : (b.chunks.length + 1) % 10 = 0 <;>
        simp [handle_message, expected_reply_count, hb, hc, well_formed_reply]
  | image_end id =>
    cases hb : alookup id bufs with
    | none => simp [handle_message, expected_reply_count, hb, well_formed_reply]
    | some b =>
      simp only [handle_message, hb]
      refine ⟨?_, ?_⟩ <;> split <;> split <;>
        simp [expected_reply_count, well_formed_reply, truthyS]
  | interrupt => simp [handle_message, expected_reply_count]

theorem fanout_event_sends (payload : JsonObj) (failing : Nat → Bool)
    (iter : List Nat) :
    (fanout_event payload failing iter).1 =
      (iter.filter (fun ws => !failing ws)).map (fun ws => (ws, payload)) := by
  induction iter with
  | nil => rfl
  | cons ws rest ih =>
    by_cases hf : failing ws <;> simp [fanout_event, hf, ih]

theorem fanout_event_survivors (payload : JsonObj) (failing : Nat → Bool)
    (iter : List Nat) :
    (fanout_event payload failing iter).2.2 =
      iter.filter (fun ws => !failing ws) := by
  induction iter with
  | nil => rfl
  | cons ws rest ih =>
    by_cases hf : failing ws <;> simp [fanout_event, hf, ih]

theorem sends_to_owner_process (owner : Nat) (failing : Nat → Bool)
    (events : List SessionEvent) (listeners : List Nat)
    (h : owner ∉ listeners) :
    sends_to owner (process_events owner failing events listeners) =
      relayed_payloads events := by
  induction events generalizing listeners with
  | nil => rfl
  | cons e rest ih =>
    cases hse : serialize_event e with
    | error msg => simp [process_events, relayed_payloads, hse, sends_to]
    | ok o =>
      cases o with
      | none =>
        simpa [process_events, relayed_payloads, hse] using ih listeners h
      | some payload =>
        have hsurv : owner ∉ (fanout_event payload failing listeners).2.2 := by
          rw [fanout_event_survivors]
          intro hmem
          exact h (List.mem_of_mem_filter hmem)
        have hfan :
            sends_to owner (fanout_event payload failing listeners).1 = [] := by
          rw [fanout_event_sends, sends_to, List.filterMap_eq_nil_iff]
          intro a ha
          obtain ⟨ws, hws, rfl⟩ := List.mem_map.mp ha
          have : ws ≠ owner := fun he =>
            h (he ▸ List.mem_of_mem_filter hws)
          simp [this]
        calc sends_to owner (process_events owner failing (e :: rest) listeners)
            = payload :: (sends_to owner (fanout_event payload failing listeners).1 ++
                sends_to owner (process_events owner failing rest
                  (fanout_event payload failing listeners).2.2)) := by
              simp [process_events, hse, sends_to]
          _ = relayed_payloads (e :: rest) := by
              rw [hfan]
              simp [relayed_payloads, hse]
              exact ih _ hsurv

/-- C4 counterexample: with observers registered in order 1 then 2, the
Python set holding them may iterate as 2 then 1 (any permutation is an
admissible set iteration order), and then an event is forwarded to the
observers in an order different from registration order. -/
theorem observer_registration_order_cx :
    ([2, 1] : List Nat).Perm [1, 2] ∧
    (fanout_event [("type", JsonValue.str "audio_end")] (fun _ => false)
        [2, 1]).1 ≠
      [1, 2].map (fun ws => (ws, [("type", JsonValue.str "audio_end")])) := by
  exact ⟨by decide, by decide⟩

/-- C4 amended: the relay forwards events in the order the hosted session
emits them — the owning socket receives exactly the serialized payload
stream in emission order — and each payload is forwarded to every observer
in the iteration order of the Python set holding them (an unspecified
permutation of the registered observers, skipping those whose send fails),
not necessarily registration order. -/
theorem event_relay_order (owner : Nat) (failing : Nat → Bool)
    (events : List SessionEvent) (listeners : List Nat)
    (h : owner ∉ listeners) :
    sends_to owner (process_events owner failing events listeners) =
      relayed_payloads events ∧
    ∀ payload iter, (fanout_event payload failing iter).1 =
      (iter.filter (fun ws => !failing ws)).map (fun ws => (ws, payload)) :=
  ⟨sends_to_owner_process owner failing events listeners h,
   fun payload iter => fanout_event_sends payload failing iter⟩

/-- C4 amended witness: two observers, no send failures, two events; the
owner receives both serialized payloads in emission order. -/
theorem event_relay_order_witness :
    sends_to 0 (process_events 0 (fun _ => false)
        [SessionEvent.audio_end, SessionEvent.agent_start "npc"] [1, 2]) =
      [[("type", .str "audio_end")],
       [("type", .str "agent_start"), ("agent", .str "npc")]] := by
  have h := event_relay_order 0 (fun _ => false)
    [SessionEvent.audio_end, SessionEvent.agent_start "npc"] [1, 2] (by decide)
  exact h.1.trans (by decide)

end Npc
